import Mathlib

/-!
Verification of the decision/state engine of the dual-ST7735 Moonraker
dashboard (`examples/screens.py`) and of the synchronized blink state
machine of the idle animation (`examples/eyes.py`).

Modelling conventions:
* Python floats are embedded as exact rationals (`ℚ`); `math.pi` becomes the
  exact rational value of the decimal literal `3.141592653589793`.
* Python's float `%` (floored modulo, used only with the positive modulus
  `2*pi`) is `pyMod`; Python's `int()` truncation toward zero is `pyInt`.
* External effects enter as explicit inputs: the Moonraker HTTP responses and
  gcode store as function arguments, the `save_variables.cfg` read as a
  `VarsRead` outcome, `random.uniform` as a sampled argument, and the
  monotonic clock as a `now : ℚ` argument.
* A rendered frame is modelled by the semantic arguments `render_panel`
  receives (pixel drawing is presentation, outside the decision engine);
  a display push is modelled by the frame appearing in the tick's output.
* Write-only presentation caches of the script (`_cached_frames`,
  `_last_m117_message`, `_last_m117_timestamp`, `_cap_cache`) are omitted:
  they are never read by any of the modelled decision logic.
-/

/-- Exact rational embedding of the script's `math.pi` literal. -/
def PI : ℚ := 3.141592653589793

/-- Python float modulo `x % m` for a positive modulus `m`: floored modulo,
`x - m * floor (x / m)`. -/
def pyMod (x m : ℚ) : ℚ := x - m * ⌊x / m⌋

/-- Python `int()` truncation toward zero on a float. -/
def pyInt (x : ℚ) : ℤ := if x < 0 then ⌈x⌉ else ⌊x⌋

/-- Source helper `clamp(v, lo, hi)` of `screens.py`: `max(lo, min(hi, v))`. -/
def clamp (v lo hi : ℚ) : ℚ := max lo (min hi v)

/-- Config constant `POLL_HZ = 5` of `screens.py`. -/
def POLL_HZ : ℚ := 5

/-- Loop period `period = 1.0 / POLL_HZ` computed in `main`. -/
def period : ℚ := 1 / POLL_HZ

/-- Config constant `ERROR_FLASH_PERIOD = 0.5` of `screens.py`. -/
def ERROR_FLASH_PERIOD : ℚ := 0.5

/-- Config constant `BASE_RPS = 1.6` of `screens.py`. -/
def BASE_RPS : ℚ := 1.6

/-- Config constant `MIN_RPS = 0.5` of `screens.py`. -/
def MIN_RPS : ℚ := 0.5

/-- Config constant `MM_PER_REV = 6.743` of `screens.py`. -/
def MM_PER_REV : ℚ := 6.743

/-- Config constant `VEL_EMA_ALPHA = 0.35` of `screens.py`. -/
def VEL_EMA_ALPHA : ℚ := 0.35

/-- Config constant `EXTRUDER_SPIN_DIR = -1.0` of `screens.py`. -/
def EXTRUDER_SPIN_DIR : ℚ := -1

/-- Config constant `M117_CLEAR_TIMEOUT = 60.0` of `screens.py`. -/
def M117_CLEAR_TIMEOUT : ℚ := 60

/-- Characters-level embedding of Python `str.strip()` (drop whitespace at
both ends). -/
def stripChars (l : List Char) : List Char :=
  ((l.dropWhile Char.isWhitespace).reverse.dropWhile Char.isWhitespace).reverse

/-- Python `s.strip()` on a string. -/
def pyStrip (s : String) : String := String.mk (stripChars s.toList)

/-- Test used by `process_m117_messages`: `msg.upper().startswith("M117")`,
applied to the upper-cased character list. -/
def hasM117Head (l : List Char) : Bool :=
  match l with
  | 'M' :: '1' :: '1' :: '7' :: _ => true
  | _ => false

/-- Python `s.split(" ", 1)` on a character list: the part before the first
space, and (when a space exists) everything after it. -/
def splitFirstSpace : List Char → List Char × Option (List Char)
  | [] => ([], none)
  | c :: rest =>
    if c = ' ' then ([], some rest)
    else
      let p := splitFirstSpace rest
      (c :: p.1, p.2)

/-- M117 parsing of `process_m117_messages`, applied to an already stripped
gcode response line: if `msg.upper().startswith("M117")`, the displayed text
is `parts[1].strip()` of `msg.split(" ", 1)` when a second part exists and
`""` otherwise; non-M117 lines yield `none`. -/
def m117Payload (s : String) : Option String :=
  if hasM117Head (s.toList.map Char.toUpper) then
    match (splitFirstSpace s.toList).2 with
    | some tail => some (String.mk (stripChars tail))
    | none => some ""
  else none

/-- One entry of Moonraker's gcode store as consumed by
`process_m117_messages`: the server time (`resp.get("time")`, possibly
absent) and the message text (`resp.get("message") or ""`). -/
structure GcodeResp where
  time : Option ℚ
  message : String
deriving DecidableEq

/-- The M117 globals of `screens.py`: `_m117_message`,
`_m117_timestamp_mono` and `_last_seen_gcode_time`. -/
structure M117State where
  msg : Option String
  ts : ℚ
  lastSeen : Option ℚ
deriving DecidableEq

/-- Loop accumulator of `process_m117_messages`: the message globals being
mutated, the `newest_resp_time` tracker and the `changed` flag. -/
structure M117Acc where
  msg : Option String
  ts : ℚ
  newest : Option ℚ
  changed : Bool
deriving DecidableEq

/-- Python truthiness of the `_m117_message` optional string (`None` and
`""` are falsy). -/
def truthyStr : Option String → Bool
  | none => false
  | some m => m != ""

/-- The skip test of the response loop:
`_last_seen_gcode_time is not None and rtime <= _last_seen_gcode_time`. -/
def timeBlocked (threshold : Option ℚ) (rt : ℚ) : Bool :=
  match threshold with
  | none => false
  | some th => if rt ≤ th then true else false

/-- The M117 branch of the response loop body of `process_m117_messages`,
acting on one stripped message line: an empty payload clears the active
message (resetting `_m117_timestamp_mono` to `0.0`) when one is set; a
non-empty payload different from the current message replaces it and stamps
`now`; an identical payload is a no-op; non-M117 lines are ignored. -/
def m117Apply (now : ℚ) (acc : M117Acc) (stripped : String) : M117Acc :=
  match m117Payload stripped with
  | none => acc
  | some d =>
    if d = "" then
      if acc.msg ≠ none then { acc with msg := none, ts := 0, changed := true } else acc
    else
      if some d ≠ acc.msg then { acc with msg := some d, ts := now, changed := true } else acc

/-- One iteration of the response loop of `process_m117_messages`: responses
without a time are skipped, responses at or before `_last_seen_gcode_time`
(fixed at call entry) are skipped, and for the rest the M117 branch runs and
`newest_resp_time` is raised to the response time. -/
def m117Step (threshold : Option ℚ) (now : ℚ) (acc : M117Acc) (r : GcodeResp) : M117Acc :=
  match r.time with
  | none => acc
  | some rt =>
    if timeBlocked threshold rt then acc
    else
      let acc1 := m117Apply now acc (pyStrip r.message)
      { acc1 with
        newest := some (match acc1.newest with | none => rt | some b => max b rt) }

/-- Embedding of `process_m117_messages(gcode_responses)` of `screens.py`.
If the active message has expired (`now - _m117_timestamp_mono` strictly
above `M117_CLEAR_TIMEOUT`), it is cleared and the function returns at once,
without touching the response list or `_last_seen_gcode_time`. Otherwise the
response loop runs and `_last_seen_gcode_time` is raised to the newest
response time seen. Returns the new state and the `changed` flag. -/
def process_m117_messages (st : M117State) (now : ℚ) (resps : List GcodeResp) :
    M117State × Bool :=
  if truthyStr st.msg ∧ now - st.ts > M117_CLEAR_TIMEOUT then
    ({ st with msg := none }, true)
  else
    let acc := resps.foldl (m117Step st.lastSeen now) ⟨st.msg, st.ts, st.lastSeen, false⟩
    ({ msg := acc.msg, ts := acc.ts, lastSeen := acc.newest }, acc.changed)

/-- Maximum of an optional initial value and all response times present in a
list; used to state what `_last_seen_gcode_time` advances to. -/
def maxTime (init : Option ℚ) (resps : List GcodeResp) : Option ℚ :=
  resps.foldl
    (fun acc r =>
      match r.time with
      | none => acc
      | some t => some (match acc with | none => t | some b => max b t))
    init

/-- The cache globals of `get_active_tool`: `_last_vars_mtime` and
`_last_active_tool`. -/
structure ToolCache where
  last_vars_mtime : Option ℚ
  last_active_tool : ℤ
deriving DecidableEq

/-- Initial values of the `get_active_tool` cache globals
(`_last_vars_mtime = None`, `_last_active_tool = 0`). -/
def initToolCache : ToolCache := ⟨none, 0⟩

/-- Outcome of `cfg.getint("Variables", "active_tool", fallback=...)`:
`raised` when the stored value is not parseable as an integer (ValueError
propagates), `missing` when the section or option is absent (the fallback is
used), `value v` when an integer is read. -/
inductive GetIntResult where
  | raised
  | missing
  | value (v : ℤ)
deriving DecidableEq

/-- Outcome of the file access of `get_active_tool`: `statFail` when
`os.stat` (or anything before it) raises, `ok mtime res` when the stat
succeeds with modification time `mtime` and the config read yields `res`. -/
inductive VarsRead where
  | statFail
  | ok (mtime : ℚ) (res : GetIntResult)
deriving DecidableEq

/-- Embedding of `get_active_tool` of `screens.py`. Returns the active tool
index and the updated cache. Any exception returns the last known value with
the cache untouched; an unchanged mtime hits the cache; otherwise the file
value is taken when it is 0 or 1 (falling back to the last known value when
it is missing or out of range), and both cache fields are rewritten. -/
def get_active_tool (c : ToolCache) (r : VarsRead) : ℤ × ToolCache :=
  match r with
  | .statFail => (c.last_active_tool, c)
  | .ok mtime res =>
    if c.last_vars_mtime = some mtime then
      (c.last_active_tool, c)
    else
      match res with
      | .raised => (c.last_active_tool, c)
      | .missing =>
        let v0 := c.last_active_tool
        let v := if v0 = 0 ∨ v0 = 1 then v0 else c.last_active_tool
        (v, ⟨some mtime, v⟩)
      | .value v0 =>
        let v := if v0 = 0 ∨ v0 = 1 then v0 else c.last_active_tool
        (v, ⟨some mtime, v⟩)

/-- The `ExtruderData` dataclass of `screens.py` (floats as rationals). -/
structure ExtruderData where
  tool : String
  temp : ℚ
  target : ℚ
  fan : Option ℚ
  status : String
  progress : ℚ
  x : ℚ
  y : ℚ
  vel : ℚ
  e : ℚ
  e_vel : ℚ
  filename : Option String
  m117_message : Option String
  m117_timestamp : ℚ
deriving DecidableEq

/-- The `current_state` tuple built by `needs_redraw` (filename is excluded
there on purpose; the quantized phase is `int(extruder_phase * 100)`). -/
structure Fingerprint where
  temp : ℚ
  target : ℚ
  fan : Option ℚ
  status : String
  progress : ℚ
  x : ℚ
  y : ℚ
  vel : ℚ
  e_vel : ℚ
  m117_message : Option String
  m117_timestamp : ℚ
  active : Bool
  phaseQ : ℤ
deriving DecidableEq

/-- Fingerprint of the render-affecting fields, as `needs_redraw` builds it. -/
def fingerprintOf (d : ExtruderData) (active : Bool) (phase : ℚ) : Fingerprint :=
  ⟨d.temp, d.target, d.fan, d.status, d.progress, d.x, d.y, d.vel, d.e_vel,
    d.m117_message, d.m117_timestamp, active, pyInt (phase * 100)⟩

/-- The `_last_frame_data` global: one stored fingerprint slot per panel. -/
structure FrameCache where
  s0 : Option Fingerprint
  s1 : Option Fingerprint
deriving DecidableEq

/-- Initial `_last_frame_data = [None, None]`. -/
def initFrameCache : FrameCache := ⟨none, none⟩

/-- Slot lookup `_last_frame_data[panel_index]`. -/
def FrameCache.get (c : FrameCache) (i : Fin 2) : Option Fingerprint :=
  if i = 0 then c.s0 else c.s1

/-- Slot assignment `_last_frame_data[panel_index] = ...`. -/
def FrameCache.set (c : FrameCache) (i : Fin 2) (fp : Option Fingerprint) : FrameCache :=
  if i = 0 then { c with s0 := fp } else { c with s1 := fp }

/-- Embedding of `needs_redraw(panel_index, data, active, extruder_phase)` of
`screens.py`: build the fingerprint of the current state, compare with the
stored slot, and on any difference store it and report `true`. -/
def needs_redraw (c : FrameCache) (i : Fin 2) (d : ExtruderData) (active : Bool)
    (phase : ℚ) : Bool × FrameCache :=
  let cur := fingerprintOf d active phase
  if c.get i ≠ some cur then (true, c.set i (some cur)) else (false, c)

/-- Values stored in the `last_err` global of `main`: the error branch stores
the 3-tuple `(title, msg, phase)`, the degraded (exception) branch stores the
2-tuple `(title, msg)`; Python tuples of different arity are never equal. -/
inductive ErrStore where
  | err3 (title msg : String) (phase : ℤ)
  | err2 (title msg : String)
deriving DecidableEq

/-- Flash phase of the error branch: `int(now / ERROR_FLASH_PERIOD) % 2`. -/
def flashPhase (now : ℚ) : ℤ := pyInt (now / ERROR_FLASH_PERIOD) % 2

/-- Signature that the error branch of `main` compares and stores:
`(title, msg, phase)` with `title = f"KLIPPER {kstate.upper()}"` and the
device message falling back to a generic instruction string. -/
def errSig (kstate kmsg : String) (now : ℚ) : ErrStore :=
  ErrStore.err3 ("KLIPPER " ++ String.mk (kstate.toList.map Char.toUpper))
    (if kmsg = "" then "Check printer console for details." else kmsg)
    (flashPhase now)

/-- Background color the error branch selects (BGR): bright red when the
flash phase is 0, dim red otherwise. -/
def errBg (now : ℚ) : ℤ × ℤ × ℤ :=
  if flashPhase now = 0 then (0, 0, 255) else (0, 0, 100)

/-- Embedding of the `kstate in ("error", "shutdown")` branch of `main`:
push (via `display_error_all`) exactly when the `(title, msg, phase)`
signature differs from `last_err`, then store it. Returns the push flag and
the new `last_err`. -/
def errorTick (kstate kmsg : String) (now : ℚ) (lastErr : Option ErrStore) :
    Bool × Option ErrStore :=
  let sig := errSig kstate kmsg now
  if some sig ≠ lastErr then (true, some sig) else (false, lastErr)

/-- Embedding of the `except` (degraded) branch of `main`: the title is the
fixed `"MOONRAKER ERROR"`, the message is built from the exception, and a
push happens exactly when the 2-tuple `(title, msg)` differs from `last_err`.
No flash phase enters this signature. (The display itself truncates the
message to 220 characters; the stored signature does not.) -/
def degradedTick (emsg : String) (lastErr : Option ErrStore) : Bool × Option ErrStore :=
  let sig := ErrStore.err2 "MOONRAKER ERROR" emsg
  if some sig ≠ lastErr then (true, some sig) else (false, lastErr)

/-- Fan rotation speed in revolutions per second chosen by `main`: zero at or
below 1% duty, otherwise `MIN_RPS + (BASE_RPS - MIN_RPS) * clamp(duty, 0, 1)`. -/
def rpsOf (fanSpeed : ℚ) : ℚ :=
  if fanSpeed > 0.01 then MIN_RPS + (BASE_RPS - MIN_RPS) * clamp fanSpeed 0 1 else 0

/-- The fan-phase advance of `main`:
`FAN_PHASE = (FAN_PHASE + 2*pi * rps * dt) % (2*pi)` (the loop passes the
fixed `period` for `dt`). -/
def fanAdvance (phase fanSpeed dt : ℚ) : ℚ :=
  pyMod (phase + 2 * PI * rpsOf fanSpeed * dt) (2 * PI)

/-- The `dt` computation of `main`: `1.0 / POLL_HZ` on the very first tick,
otherwise `max(0.0, min(0.25, now - last))`. -/
def dtOf (lastTick : Option ℚ) (now : ℚ) : ℚ :=
  match lastTick with
  | none => 1 / POLL_HZ
  | some t => max 0 (min 0.25 (now - t))

/-- One extruder-indicator update of `main` for one panel: EMA-smooth the raw
extruder velocity, convert to angular velocity
`dir * 2*pi * (smoothed / max(1e-6, mmPerRev))`, and advance the persistent
phase by `omega * dt`, wrapped into `[0, 2*pi)`. Returns (new EMA, new phase). -/
def extruderStep (alpha mmPerRev dir ema phase raw dt : ℚ) : ℚ × ℚ :=
  let ema' := (1 - alpha) * ema + alpha * raw
  let omega := dir * (2 * PI) * (ema' / max 0.000001 mmPerRev)
  (ema', pyMod (phase + omega * dt) (2 * PI))

/-- Iterated extruder updates with a constant raw velocity and constant `dt`. -/
def extruderIter (alpha mmPerRev dir raw dt : ℚ) : ℕ → ℚ × ℚ → ℚ × ℚ
  | 0, s => s
  | n + 1, s =>
    extruderIter alpha mmPerRev dir raw dt n
      (extruderStep alpha mmPerRev dir s.1 s.2 raw dt)

/-- Semantic content of one rendered panel frame: the arguments `main` passes
to `render_panel` (the pixel output is a pure function of these). -/
structure Frame where
  name : String
  data : ExtruderData
  active : Bool
  phase : ℚ
deriving DecidableEq

/-- The mutable loop state of `screens.py` `main` (module globals plus the
locals that persist across iterations). -/
structure ScreensState where
  fanPhase : ℚ
  extruderPhase0 : ℚ
  extruderPhase1 : ℚ
  extruderEma0 : ℚ
  extruderEma1 : ℚ
  lastTickTime : Option ℚ
  m117 : M117State
  frameCache : FrameCache
  lastErr : Option ErrStore
  gcodeCounter : ℕ
  toolCache : ToolCache
deriving DecidableEq

/-- Result of one NORMAL-mode loop iteration: the new state and the frames
pushed to the left and right displays (`some` = a `display` call happened). -/
structure TickOutput where
  state : ScreensState
  pushedLeft : Option Frame
  pushedRight : Option Frame
deriving DecidableEq

/-- Stamp the fetched panel data with the current M117 globals, as
`query_tool` does when it builds `ExtruderData` (it runs after the gcode
gate in the loop body). -/
def stampM117 (m : M117State) (d : ExtruderData) : ExtruderData :=
  { d with m117_message := m.msg, m117_timestamp := m.ts }

/-- Embedding of one iteration of the NORMAL (non-error) branch of `main` in
`screens.py`: every 5th iteration the gcode store is polled and
`process_m117_messages` runs; the active tool is read; the fan phase advances
by the fixed `period`; `dt` is computed from the previous monotonic tick time
and both extruder phases advance; then both panels are rendered and pushed
unconditionally (the loop never calls `needs_redraw`), and `last_err` is
cleared. Raw fetched panel data and the file-read outcome are inputs. -/
def normalTick (st : ScreensState) (now : ℚ) (resps : List GcodeResp)
    (d0 d1 : ExtruderData) (vr : VarsRead) : TickOutput :=
  let c := st.gcodeCounter + 1
  let counterAndM117 :=
    if c ≥ 5 then ((0 : ℕ), (process_m117_messages st.m117 now resps).1)
    else (c, st.m117)
  let counter' := counterAndM117.1
  let m117' := counterAndM117.2
  let d0' := stampM117 m117' d0
  let d1' := stampM117 m117' d1
  let toolRes := get_active_tool st.toolCache vr
  let active := toolRes.1
  let fanSpeed := (if active = 1 then d1' else d0').fan.getD 0
  let fanPhase' := fanAdvance st.fanPhase fanSpeed period
  let dt := dtOf st.lastTickTime now
  let e0 := extruderStep VEL_EMA_ALPHA MM_PER_REV EXTRUDER_SPIN_DIR
    st.extruderEma0 st.extruderPhase0 d0'.e_vel dt
  let e1 := extruderStep VEL_EMA_ALPHA MM_PER_REV EXTRUDER_SPIN_DIR
    st.extruderEma1 st.extruderPhase1 d1'.e_vel dt
  let leftFrame : Frame := ⟨"T0", d0', active == 0, e0.2⟩
  let rightFrame : Frame := ⟨"T1", d1', active == 1, e1.2⟩
  { state :=
      { fanPhase := fanPhase'
        extruderPhase0 := e0.2
        extruderPhase1 := e1.2
        extruderEma0 := e0.1
        extruderEma1 := e1.1
        lastTickTime := some now
        m117 := m117'
        frameCache := st.frameCache
        lastErr := none
        gcodeCounter := counter'
        toolCache := toolRes.2 }
    pushedLeft := some leftFrame
    pushedRight := some rightFrame }

/-- All-zeros panel data, used as a concrete input. -/
def d_zero : ExtruderData :=
  ⟨"EXTRUDER", 0, 0, some 0, "", 0, 0, 0, 0, 0, 0, none, none, 0⟩

/-- A concrete quiescent loop state. -/
def st_zero : ScreensState :=
  ⟨0, 0, 0, 0, 0, some 0, ⟨none, 0, none⟩, initFrameCache, none, 0, initToolCache⟩

/-- The quiescent state with an active M117 message first seen at time 0. -/
def st_m117 : ScreensState := { st_zero with m117 := ⟨some "A", 0, none⟩ }

/-- The frame that a quiescent tick renders for the left panel. -/
def frame_zero : Frame := ⟨"T0", d_zero, true, 0⟩

/-- Blink config constant `BLINK_TIME = 0.12` of `eyes.py`. -/
def BLINK_TIME : ℚ := 0.12

/-- Blink config constant `BLINK_HOLD = 0.06` of `eyes.py`. -/
def BLINK_HOLD : ℚ := 0.06

/-- Blink config constant `MIN_BLINK_SEC = 2.0` of `eyes.py`. -/
def MIN_BLINK_SEC : ℚ := 2

/-- Blink config constant `MAX_BLINK_SEC = 6.0` of `eyes.py`. -/
def MAX_BLINK_SEC : ℚ := 6

/-- The four phases of the blink state machine of `eyes.py`. -/
inductive BlinkPhase where
  | idle
  | closing
  | closed
  | opening
deriving DecidableEq

/-- The `blink_state` tuple `(phase, start_time, amt)` of `eyes.py`. -/
structure BlinkState where
  phase : BlinkPhase
  tStart : ℚ
  amt : ℚ
deriving DecidableEq

/-- Embedding of `update_blink(now, next_blink, state)` of `eyes.py`. The
`draw` argument models the `random.uniform(MIN_BLINK_SEC, MAX_BLINK_SEC)`
sample taken when an idle state triggers. Returns the new state and the new
`next_blink`. -/
def update_blink (now next_blink : ℚ) (s : BlinkState) (draw : ℚ) :
    BlinkState × ℚ :=
  match s.phase with
  | .idle =>
    if now ≥ next_blink then (⟨.closing, now, 0⟩, now + draw) else (s, next_blink)
  | .closing =>
    let prog := min 1 ((now - s.tStart) / BLINK_TIME)
    if prog ≥ 1 then (⟨.closed, now, 1⟩, next_blink)
    else (⟨.closing, s.tStart, prog⟩, next_blink)
  | .closed =>
    if now - s.tStart ≥ BLINK_HOLD then (⟨.opening, now, 1⟩, next_blink)
    else (s, next_blink)
  | .opening =>
    let prog := 1 - min 1 ((now - s.tStart) / BLINK_TIME)
    if prog ≤ 0 then (⟨.idle, 0, 0⟩, next_blink)
    else (⟨.opening, s.tStart, prog⟩, next_blink)

/-- Python's `%` with a positive modulus is the modulus times the fractional
part of the quotient. -/
theorem pyMod_eq_mul_fract (x m : ℚ) (hm : m ≠ 0) : pyMod x m = m * Int.fract (x / m) := by
  unfold pyMod Int.fract
  field_simp

/-- Result of `pyMod` with a positive modulus is nonnegative. -/
theorem pyMod_nonneg (x m : ℚ) (hm : 0 < m) : 0 ≤ pyMod x m := by
  rw [pyMod_eq_mul_fract x m hm.ne.symm]
  exact mul_nonneg hm.le (Int.fract_nonneg _)

/-- Result of `pyMod` with a positive modulus is below the modulus. -/
theorem pyMod_lt (x m : ℚ) (hm : 0 < m) : pyMod x m < m := by
  rw [pyMod_eq_mul_fract x m hm.ne.symm]
  calc m * Int.fract (x / m) < m * 1 := by
        exact mul_lt_mul_of_pos_left (Int.fract_lt_one _) hm
    _ = m := mul_one m

/-- Wrapping commutes with accumulating: advancing an already wrapped phase
and wrapping again is the same as wrapping the unwrapped sum. -/
theorem pyMod_add_left (a b m : ℚ) (hm : m ≠ 0) :
    pyMod (pyMod a m + b) m = pyMod (a + b) m := by
  unfold pyMod
  have h : (a - m * ⌊a / m⌋ + b) / m = (a + b) / m - ⌊a / m⌋ := by
    field_simp
    ring
  rw [h, Int.floor_sub_int]
  push_cast
  ring

/-- The wrap modulus `2 * pi` of both integrators is positive. -/
theorem twoPi_pos : 0 < 2 * PI := by norm_num [PI]

/-- C1: for every tick and for both phase-integrator variants (the
discrete-rate fan integrator and the velocity-integration extruder
integrator), for every `dt ≥ 0` and every input duty / raw-rate value (and
any prior stored phase), the stored phase after the advance step lies in
`[0, 2*pi)`. -/
theorem c1_phase_in_range (phase fanSpeed dt ema phase2 raw dt2 : ℚ)
    (hdt : 0 ≤ dt) (hdt2 : 0 ≤ dt2) :
    (0 ≤ fanAdvance phase fanSpeed dt ∧ fanAdvance phase fanSpeed dt < 2 * PI)
    ∧ (0 ≤ (extruderStep VEL_EMA_ALPHA MM_PER_REV EXTRUDER_SPIN_DIR ema phase2 raw dt2).2
        ∧ (extruderStep VEL_EMA_ALPHA MM_PER_REV EXTRUDER_SPIN_DIR ema phase2 raw dt2).2
            < 2 * PI) := by
  unfold fanAdvance extruderStep
  exact ⟨⟨pyMod_nonneg _ _ twoPi_pos, pyMod_lt _ _ twoPi_pos⟩,
    ⟨pyMod_nonneg _ _ twoPi_pos, pyMod_lt _ _ twoPi_pos⟩⟩

/-- C1 witness: both integrators evaluated at a concrete state and inputs. -/
theorem c1_phase_in_range_witness :
    0 ≤ (1 : ℚ) ∧
      ((0 ≤ fanAdvance 3 (1/2) 1 ∧ fanAdvance 3 (1/2) 1 < 2 * PI)
        ∧ (0 ≤ (extruderStep VEL_EMA_ALPHA MM_PER_REV EXTRUDER_SPIN_DIR 0 3 10 1).2
            ∧ (extruderStep VEL_EMA_ALPHA MM_PER_REV EXTRUDER_SPIN_DIR 0 3 10 1).2
                < 2 * PI)) :=
  ⟨by norm_num, c1_phase_in_range 3 (1/2) 1 0 3 10 1 (by norm_num) (by norm_num)⟩

/-- With `alpha = 1` (no smoothing) and a constant raw rate, `n + 1` extruder
steps advance the phase by `(n + 1)` equal increments, wrapped once. -/
theorem extruderIter_alpha_one (mm dir raw dt : ℚ) :
    ∀ (n : ℕ) (s : ℚ × ℚ),
      (extruderIter 1 mm dir raw dt (n + 1) s).2
        = pyMod (s.2 + ((n : ℚ) + 1) * (dir * (2 * PI) * (raw / max 0.000001 mm) * dt))
            (2 * PI) := by
  intro n
  induction n with
  | zero =>
    intro s
    simp only [extruderIter, extruderStep]
    push_cast
    congr 1
    ring
  | succ k ih =>
    intro s
    have hstep : extruderIter 1 mm dir raw dt (k + 1 + 1) s
        = extruderIter 1 mm dir raw dt (k + 1) (extruderStep 1 mm dir s.1 s.2 raw dt) := rfl
    rw [hstep, ih]
    simp only [extruderStep]
    rw [pyMod_add_left _ _ _ twoPi_pos.ne.symm]
    congr 1
    push_cast
    ring

/-- C7: each tick the velocity-integration variant computes
`smoothed = (1 - alpha) * smoothed + alpha * raw`, an angular rate
`spinDirection * 2*pi * smoothed / unitsPerRevolution`, and advances the
phase by `angularRate * dt`; the `dt` the loop feeds it is clamped into
`[0, 0.25]` (never negative); and in the spec scenario (units per revolution
6.743, constant raw 10.0, alpha 1.0, ten steps of dt 0.1 from phase 0) the
total phase advance is exactly `2*pi * 10 / 6.743 * 1` radians (mod `2*pi`)
in the direction of `spinDirection`. -/
theorem c7_velocity_integration :
    (∀ ema phase raw dt : ℚ,
      (extruderStep VEL_EMA_ALPHA MM_PER_REV EXTRUDER_SPIN_DIR ema phase raw dt).1
          = (1 - VEL_EMA_ALPHA) * ema + VEL_EMA_ALPHA * raw
        ∧ (extruderStep VEL_EMA_ALPHA MM_PER_REV EXTRUDER_SPIN_DIR ema phase raw dt).2
          = pyMod
              (phase + EXTRUDER_SPIN_DIR * (2 * PI)
                * (((1 - VEL_EMA_ALPHA) * ema + VEL_EMA_ALPHA * raw) / MM_PER_REV) * dt)
              (2 * PI))
    ∧ (∀ (tPrev : Option ℚ) (now : ℚ), 0 ≤ dtOf tPrev now ∧ dtOf tPrev now ≤ 0.25)
    ∧ (∀ dir ema0 : ℚ,
        (extruderIter 1 MM_PER_REV dir 10 0.1 10 (ema0, 0)).2
          = pyMod (dir * (2 * PI) * (10 / MM_PER_REV) * 1) (2 * PI)) := by
  refine ⟨fun ema phase raw dt => ⟨rfl, ?_⟩, fun tPrev now => ?_, fun dir ema0 => ?_⟩
  · simp only [extruderStep]
    rw [show max (0.000001 : ℚ) MM_PER_REV = MM_PER_REV by norm_num [MM_PER_REV]]
  · cases tPrev with
    | none => constructor <;> norm_num [dtOf, POLL_HZ]
    | some tp =>
      constructor
      · exact le_max_left 0 _
      · simp only [dtOf]
        exact max_le (by norm_num) (min_le_left _ _)
  · rw [show (10 : ℕ) = 9 + 1 from rfl, extruderIter_alpha_one]
    rw [show max (0.000001 : ℚ) MM_PER_REV = MM_PER_REV by norm_num [MM_PER_REV]]
    congr 1
    push_cast
    ring_nf

/-- Writing a fingerprint slot and reading the same slot returns it. -/
theorem FrameCache.get_set_same (c : FrameCache) (i : Fin 2) (fp : Option Fingerprint) :
    (c.set i fp).get i = fp := by
  fin_cases i <;> simp [FrameCache.get, FrameCache.set]

/-- Writing a fingerprint slot leaves the other slot unchanged. -/
theorem FrameCache.get_set_other (c : FrameCache) (i j : Fin 2) (fp : Option Fingerprint)
    (h : j ≠ i) : (c.set i fp).get j = c.get j := by
  fin_cases i <;> fin_cases j <;> simp_all [FrameCache.get, FrameCache.set]

/-- A `needs_redraw` call for one panel leaves the other panel's stored
fingerprint unchanged. -/
theorem needs_redraw_cache_other (c : FrameCache) (i j : Fin 2) (d : ExtruderData)
    (a : Bool) (p : ℚ) (h : j ≠ i) :
    (needs_redraw c i d a p).2.get j = c.get j := by
  by_cases hc : c.get i = some (fingerprintOf d a p)
  · simp [needs_redraw, hc]
  · simp only [needs_redraw, hc, ne_eq, not_false_iff, if_true]
    exact FrameCache.get_set_other c i j _ h

/-- The boolean `needs_redraw` returns for a panel depends only on that
panel's stored fingerprint. -/
theorem needs_redraw_push_congr (c c' : FrameCache) (j : Fin 2) (d' : ExtruderData)
    (a' : Bool) (p' : ℚ) (h : c'.get j = c.get j) :
    (needs_redraw c' j d' a' p').1 = (needs_redraw c j d' a' p').1 := by
  by_cases hc : c.get j = some (fingerprintOf d' a' p')
  · simp [needs_redraw, h, hc]
  · simp [needs_redraw, h, hc]

/-- C8: the change detector `needs_redraw` returns true (and stores the new
fingerprint) on the first call for a channel and whenever the fingerprint
differs from the stored one; it returns false with the state untouched when
the fingerprint is structurally identical; and a call for one channel never
changes the stored fingerprint, nor the result, for the other channel. -/
theorem c8_change_detector (c : FrameCache) (i j : Fin 2) (d d' : ExtruderData)
    (a a' : Bool) (p p' : ℚ) (hne : j ≠ i) :
    ((needs_redraw initFrameCache i d a p).1 = true)
    ∧ (c.get i ≠ some (fingerprintOf d a p) →
        (needs_redraw c i d a p).1 = true
          ∧ (needs_redraw c i d a p).2.get i = some (fingerprintOf d a p))
    ∧ (c.get i = some (fingerprintOf d a p) → needs_redraw c i d a p = (false, c))
    ∧ ((needs_redraw c i d a p).2.get j = c.get j)
    ∧ ((needs_redraw (needs_redraw c i d a p).2 j d' a' p').1
        = (needs_redraw c j d' a' p').1) := by
  refine ⟨?_, fun h => ⟨?_, ?_⟩, fun h => ?_, ?_, ?_⟩
  · have hg : initFrameCache.get i = none := by
      fin_cases i <;> simp [FrameCache.get, initFrameCache]
    simp [needs_redraw, hg]
  · simp [needs_redraw, h]
  · simp only [needs_redraw, h, ne_eq, not_false_iff, if_true]
    exact FrameCache.get_set_same c i _
  · simp [needs_redraw, h]
  · exact needs_redraw_cache_other c i j d a p hne
  · exact needs_redraw_push_congr c _ j d' a' p' (needs_redraw_cache_other c i j d a p hne)

/-- C8 witness: the change detector evaluated on the initial cache and
concrete panel data. -/
theorem c8_change_detector_witness :
    ((1 : Fin 2) ≠ 0)
    ∧ (((needs_redraw initFrameCache 0 d_zero true 0).1 = true)
      ∧ (initFrameCache.get 0 ≠ some (fingerprintOf d_zero true 0) →
          (needs_redraw initFrameCache 0 d_zero true 0).1 = true
            ∧ (needs_redraw initFrameCache 0 d_zero true 0).2.get 0
                = some (fingerprintOf d_zero true 0))
      ∧ (initFrameCache.get 0 = some (fingerprintOf d_zero true 0) →
          needs_redraw initFrameCache 0 d_zero true 0 = (false, initFrameCache))
      ∧ ((needs_redraw initFrameCache 0 d_zero true 0).2.get 1 = initFrameCache.get 1)
      ∧ ((needs_redraw (needs_redraw initFrameCache 0 d_zero true 0).2 1 d_zero false 1).1
          = (needs_redraw initFrameCache 1 d_zero false 1).1)) :=
  ⟨by decide, c8_change_detector initFrameCache 0 1 d_zero d_zero true false 0 1 (by decide)⟩

/-- C9: starting from blink state IDLE with `nextTriggerAt = now` and
stepping at the phase boundaries: after `closeDuration` (= `BLINK_TIME`) the
state is CLOSED with amount 1; after `closeDuration + holdDuration` it is
OPENING; after `closeDuration + holdDuration + openDuration` it is IDLE with
amount 0 and the pending `nextTriggerAt` (scheduled from the uniform draw in
`[MIN_BLINK_SEC, MAX_BLINK_SEC]`) is strictly later than the current time. -/
theorem c9_blink_cycle (t draw : ℚ) (h1 : MIN_BLINK_SEC ≤ draw) (h2 : draw ≤ MAX_BLINK_SEC) :
    update_blink t t ⟨.idle, 0, 0⟩ draw = (⟨.closing, t, 0⟩, t + draw)
    ∧ update_blink (t + BLINK_TIME) (t + draw) ⟨.closing, t, 0⟩ draw
        = (⟨.closed, t + BLINK_TIME, 1⟩, t + draw)
    ∧ update_blink (t + BLINK_TIME + BLINK_HOLD) (t + draw) ⟨.closed, t + BLINK_TIME, 1⟩ draw
        = (⟨.opening, t + BLINK_TIME + BLINK_HOLD, 1⟩, t + draw)
    ∧ update_blink (t + BLINK_TIME + BLINK_HOLD + BLINK_TIME) (t + draw)
          ⟨.opening, t + BLINK_TIME + BLINK_HOLD, 1⟩ draw
        = (⟨.idle, 0, 0⟩, t + draw)
    ∧ t + draw > t + (BLINK_TIME + BLINK_HOLD + BLINK_TIME) := by
  refine ⟨?_, ?_, ?_, ?_, ?_⟩
  · simp [update_blink]
  · simp [update_blink]
    norm_num [BLINK_TIME]
  · have hh : t + BLINK_TIME + BLINK_HOLD - (t + BLINK_TIME) ≥ BLINK_HOLD := by
      norm_num
    simp [update_blink, hh]
  · simp [update_blink]
    norm_num [BLINK_TIME]
  · have h2' : MIN_BLINK_SEC = 2 := rfl
    rw [h2'] at h1
    norm_num [BLINK_TIME, BLINK_HOLD]
    linarith

/-- C9 witness: the blink cycle run from time 0 with the minimum draw. -/
theorem c9_blink_cycle_witness :
    MIN_BLINK_SEC ≤ (2 : ℚ) ∧ (2 : ℚ) ≤ MAX_BLINK_SEC
    ∧ (update_blink 0 0 ⟨.idle, 0, 0⟩ 2 = (⟨.closing, 0, 0⟩, 0 + 2)
      ∧ update_blink (0 + BLINK_TIME) (0 + 2) ⟨.closing, 0, 0⟩ 2
          = (⟨.closed, 0 + BLINK_TIME, 1⟩, 0 + 2)
      ∧ update_blink (0 + BLINK_TIME + BLINK_HOLD) (0 + 2) ⟨.closed, 0 + BLINK_TIME, 1⟩ 2
          = (⟨.opening, 0 + BLINK_TIME + BLINK_HOLD, 1⟩, 0 + 2)
      ∧ update_blink (0 + BLINK_TIME + BLINK_HOLD + BLINK_TIME) (0 + 2)
            ⟨.opening, 0 + BLINK_TIME + BLINK_HOLD, 1⟩ 2
          = (⟨.idle, 0, 0⟩, 0 + 2)
      ∧ (0 : ℚ) + 2 > 0 + (BLINK_TIME + BLINK_HOLD + BLINK_TIME)) :=
  ⟨by norm_num [MIN_BLINK_SEC], by norm_num [MAX_BLINK_SEC],
    c9_blink_cycle 0 2 (by norm_num [MIN_BLINK_SEC]) (by norm_num [MAX_BLINK_SEC])⟩

/-- After an error-branch tick, `last_err` always holds that tick's
signature, whether or not a push happened. -/
theorem errorTick_stores (ks km : String) (n : ℚ) (le : Option ErrStore) :
    (errorTick ks km n le).2 = some (errSig ks km n) := by
  by_cases h : some (errSig ks km n) ≠ le
  · simp [errorTick, h]
  · have he := not_ne_iff.mp h
    simp [errorTick, ← he]

/-- C3 (amended): on ERROR ticks (device-reported error/shutdown) the flash
phase is `floor(now / flashPeriod) mod 2` and a push is issued iff the
`(title, message, flashPhaseIndex)` signature differs from the previous
tick's one — so equal text with a differing flash index pushes, and a fully
identical signature does not. On DEGRADED ticks (fetch failure) no flash
phase enters the signature: a push is issued iff `(title, message)` differs,
and an identical consecutive degraded tick never pushes. -/
theorem c3_fault_push_signature (ks km emsg : String) (now n1 n2 : ℚ)
    (lastErr le de : Option ErrStore) (hnow : 0 ≤ now) :
    (flashPhase now = ⌊now / ERROR_FLASH_PERIOD⌋ % 2)
    ∧ ((errorTick ks km now lastErr).1 = true ↔ some (errSig ks km now) ≠ lastErr)
    ∧ (flashPhase n1 ≠ flashPhase n2 →
        (errorTick ks km n2 (errorTick ks km n1 le).2).1 = true)
    ∧ (flashPhase n1 = flashPhase n2 →
        (errorTick ks km n2 (errorTick ks km n1 le).2).1 = false)
    ∧ ((degradedTick emsg de).1 = true ↔ some (ErrStore.err2 "MOONRAKER ERROR" emsg) ≠ de)
    ∧ ((degradedTick emsg (degradedTick emsg de).2).1 = false) := by
  have hdstore : (degradedTick emsg de).2 = some (ErrStore.err2 "MOONRAKER ERROR" emsg) := by
    by_cases h : some (ErrStore.err2 "MOONRAKER ERROR" emsg) ≠ de
    · simp [degradedTick, h]
    · have he := not_ne_iff.mp h
      simp [degradedTick, ← he]
  refine ⟨?_, ?_, fun hph => ?_, fun hph => ?_, ?_, ?_⟩
  · have hx : ¬(now / ERROR_FLASH_PERIOD < 0) :=
      not_lt.2 (div_nonneg hnow (by norm_num [ERROR_FLASH_PERIOD]))
    simp [flashPhase, pyInt, hx]
  · by_cases hP : some (errSig ks km now) ≠ lastErr
    · simp [errorTick, hP]
    · simp [errorTick, hP]
  · rw [errorTick_stores]
    have hsig : errSig ks km n2 ≠ errSig ks km n1 := by
      intro hc
      apply hph
      simp only [errSig, ErrStore.err3.injEq] at hc
      exact hc.2.2.symm
    simp [errorTick, hsig]
  · rw [errorTick_stores]
    have hsig : errSig ks km n2 = errSig ks km n1 := by
      unfold errSig
      rw [hph]
    simp [errorTick, hsig]
  · by_cases hP : some (ErrStore.err2 "MOONRAKER ERROR" emsg) ≠ de
    · simp [degradedTick, hP]
    · simp [degradedTick, hP]
  · rw [hdstore]
    simp [degradedTick]

/-- C3 witness: the fault signature machinery evaluated at concrete ticks,
with flash boundary times 0 and 0.5. -/
theorem c3_fault_push_signature_witness :
    0 ≤ (1 : ℚ)
    ∧ ((flashPhase 1 = ⌊(1 : ℚ) / ERROR_FLASH_PERIOD⌋ % 2)
      ∧ ((errorTick "error" "" 1 none).1 = true ↔ some (errSig "error" "" 1) ≠ none)
      ∧ (flashPhase 0 ≠ flashPhase (1/2) →
          (errorTick "error" "" (1/2) (errorTick "error" "" 0 none).2).1 = true)
      ∧ (flashPhase 0 = flashPhase (1/2) →
          (errorTick "error" "" (1/2) (errorTick "error" "" 0 none).2).1 = false)
      ∧ ((degradedTick "boom" none).1 = true
          ↔ some (ErrStore.err2 "MOONRAKER ERROR" "boom") ≠ none)
      ∧ ((degradedTick "boom" (degradedTick "boom" none).2).1 = false)) :=
  ⟨by norm_num, c3_fault_push_signature "error" "" "boom" 1 0 (1/2) none none none (by norm_num)⟩

/-- C3 counterexample: two consecutive DEGRADED ticks (at times 0 and 0.5,
which lie in different flash phases) with identical title and message do NOT
produce a push: the degraded branch's signature carries no flash phase at
all, contradicting the claim that a differing flash phase forces a push
whenever the mode is not NORMAL. -/
theorem c3_degraded_no_flash_counterexample :
    flashPhase 0 ≠ flashPhase (1/2)
    ∧ (degradedTick "boom" (degradedTick "boom" none).2).1 = false := by
  constructor
  · norm_num [flashPhase, pyInt, ERROR_FLASH_PERIOD]
  · simp [degradedTick]

/-- C10 (amended): every call to `get_active_tool` returns 0 or 1 and keeps
the cached value in {0, 1} (0 initially). On a stat failure, on a cache hit,
and on a `getint` exception the call returns the last known value and leaves
BOTH cache fields unchanged. When the file is re-read and the parsed value is
out of range, the call returns and keeps the last known value, but it DOES
record the new file mtime. -/
theorem c10_active_tool (c : ToolCache) (r : VarsRead) (m : ℚ) (v : ℤ)
    (hlast : c.last_active_tool = 0 ∨ c.last_active_tool = 1) :
    ((get_active_tool c r).1 = 0 ∨ (get_active_tool c r).1 = 1)
    ∧ ((get_active_tool c r).2.last_active_tool = 0
        ∨ (get_active_tool c r).2.last_active_tool = 1)
    ∧ (get_active_tool c .statFail = (c.last_active_tool, c))
    ∧ (∀ res : GetIntResult, c.last_vars_mtime = some m →
        get_active_tool c (.ok m res) = (c.last_active_tool, c))
    ∧ (c.last_vars_mtime ≠ some m →
        get_active_tool c (.ok m .raised) = (c.last_active_tool, c))
    ∧ (c.last_vars_mtime ≠ some m → ¬(v = 0 ∨ v = 1) →
        (get_active_tool c (.ok m (.value v))).1 = c.last_active_tool
          ∧ (get_active_tool c (.ok m (.value v))).2.last_active_tool = c.last_active_tool
          ∧ (get_active_tool c (.ok m (.value v))).2.last_vars_mtime = some m)
    ∧ initToolCache.last_active_tool = 0 := by
  have hval : ∀ v0 : ℤ,
      (if v0 = 0 ∨ v0 = 1 then v0 else c.last_active_tool) = 0
        ∨ (if v0 = 0 ∨ v0 = 1 then v0 else c.last_active_tool) = 1 := by
    intro v0
    by_cases hv : v0 = 0 ∨ v0 = 1
    · simpa [hv] using hv
    · simpa [hv] using hlast
  have hkey1 : (get_active_tool c r).1 = 0 ∨ (get_active_tool c r).1 = 1 := by
    rcases r with _ | ⟨mt, res⟩
    · simpa [get_active_tool] using hlast
    · by_cases hmt : c.last_vars_mtime = some mt
      · simpa [get_active_tool, hmt] using hlast
      · cases res with
        | raised => simpa [get_active_tool, hmt] using hlast
        | missing => simpa [get_active_tool, hmt, ite_self] using hlast
        | value v0 => simpa [get_active_tool, hmt] using hval v0
  have hkey2 : (get_active_tool c r).2.last_active_tool = 0
      ∨ (get_active_tool c r).2.last_active_tool = 1 := by
    rcases r with _ | ⟨mt, res⟩
    · simpa [get_active_tool] using hlast
    · by_cases hmt : c.last_vars_mtime = some mt
      · simpa [get_active_tool, hmt] using hlast
      · cases res with
        | raised => simpa [get_active_tool, hmt] using hlast
        | missing => simpa [get_active_tool, hmt, ite_self] using hlast
        | value v0 => simpa [get_active_tool, hmt] using hval v0
  refine ⟨hkey1, hkey2, rfl, fun res hm => ?_, fun hm => ?_, fun hm hv => ?_, rfl⟩
  · simp [get_active_tool, hm]
  · simp [get_active_tool, hm]
  · simp [get_active_tool, hm, hv]

/-- C10 witness: the reader evaluated on the initial cache at a concrete
read outcome. -/
theorem c10_active_tool_witness :
    ((initToolCache.last_active_tool = 0 ∨ initToolCache.last_active_tool = 1))
    ∧ (((get_active_tool initToolCache (.ok 5 .raised)).1 = 0
          ∨ (get_active_tool initToolCache (.ok 5 .raised)).1 = 1)
      ∧ ((get_active_tool initToolCache (.ok 5 .raised)).2.last_active_tool = 0
          ∨ (get_active_tool initToolCache (.ok 5 .raised)).2.last_active_tool = 1)
      ∧ (get_active_tool initToolCache .statFail
          = (initToolCache.last_active_tool, initToolCache))
      ∧ (∀ res : GetIntResult, initToolCache.last_vars_mtime = some 5 →
          get_active_tool initToolCache (.ok 5 res)
            = (initToolCache.last_active_tool, initToolCache))
      ∧ (initToolCache.last_vars_mtime ≠ some 5 →
          get_active_tool initToolCache (.ok 5 .raised)
            = (initToolCache.last_active_tool, initToolCache))
      ∧ (initToolCache.last_vars_mtime ≠ some 5 → ¬((7 : ℤ) = 0 ∨ (7 : ℤ) = 1) →
          (get_active_tool initToolCache (.ok 5 (.value 7))).1
              = initToolCache.last_active_tool
            ∧ (get_active_tool initToolCache (.ok 5 (.value 7))).2.last_active_tool
                = initToolCache.last_active_tool
            ∧ (get_active_tool initToolCache (.ok 5 (.value 7))).2.last_vars_mtime = some 5)
      ∧ initToolCache.last_active_tool = 0) :=
  ⟨Or.inl rfl, c10_active_tool initToolCache (.ok 5 .raised) 5 7 (Or.inl rfl)⟩

/-- C10 counterexample: from the initial cache (no stored mtime, last value
0), a successful read of the out-of-range value 7 at mtime 5 returns the
fallback 0 as the claim says, but it does NOT leave the cached state
unchanged: the stored file-modification time becomes `some 5`. -/
theorem c10_mtime_update_counterexample :
    (get_active_tool ⟨none, 0⟩ (.ok 5 (.value 7))).1 = 0
    ∧ (get_active_tool ⟨none, 0⟩ (.ok 5 (.value 7))).2.last_vars_mtime = some 5
    ∧ some (5 : ℚ) ≠ (none : Option ℚ) := by
  refine ⟨?_, ?_, by simp⟩ <;> simp [get_active_tool]

/-- The M117 branch of the response loop never touches the
`newest_resp_time` tracker. -/
theorem m117Apply_newest (now : ℚ) (acc : M117Acc) (s : String) :
    (m117Apply now acc s).newest = acc.newest := by
  cases hp : m117Payload s with
  | none => simp [m117Apply, hp]
  | some d =>
    simp only [m117Apply, hp]
    split_ifs <;> rfl

/-- Unfolding `maxTime` over the head of the response list. -/
theorem maxTime_cons (init : Option ℚ) (r : GcodeResp) (rest : List GcodeResp) :
    maxTime init (r :: rest)
      = maxTime
          (match r.time with
            | none => init
            | some t => some (match init with | none => t | some b => max b t))
          rest := rfl

/-- `maxTime` never drops below its initial value. -/
theorem maxTime_mono :
    ∀ (resps : List GcodeResp) (x : ℚ) (init : Option ℚ), init = some x →
      ∃ y, maxTime init resps = some y ∧ x ≤ y := by
  intro resps
  induction resps with
  | nil =>
    intro x init h
    exact ⟨x, h ▸ rfl, le_refl x⟩
  | cons r rest ih =>
    intro x init h
    rw [maxTime_cons]
    cases ht : r.time with
    | none =>
      simp only [ht]
      exact ih x init h
    | some t =>
      subst h
      simp only [ht]
      obtain ⟨y, hy, hxy⟩ := ih (max x t) (some (max x t)) rfl
      exact ⟨y, hy, le_trans (le_max_left x t) hxy⟩

/-- The response loop computes exactly `maxTime` of its starting tracker,
provided the tracker starts at or above the skip threshold (which holds for
the real call, where both start as `_last_seen_gcode_time`). -/
theorem m117_fold_newest (threshold : Option ℚ) (now : ℚ) :
    ∀ (resps : List GcodeResp) (acc : M117Acc),
      (∀ th, threshold = some th → ∃ a, acc.newest = some a ∧ th ≤ a) →
      (resps.foldl (m117Step threshold now) acc).newest = maxTime acc.newest resps := by
  intro resps
  induction resps with
  | nil =>
    intro acc hinv
    rfl
  | cons r rest ih =>
    intro acc hinv
    rw [List.foldl_cons, maxTime_cons]
    cases ht : r.time with
    | none =>
      have hstep : m117Step threshold now acc r = acc := by simp [m117Step, ht]
      rw [hstep]
      simp only [ht]
      exact ih acc hinv
    | some rt =>
      by_cases hb : timeBlocked threshold rt = true
      · rcases threshold with _ | th
        · simp [timeBlocked] at hb
        · obtain ⟨a, ha, hth⟩ := hinv th rfl
          have hrt : rt ≤ th := by
            by_contra hcon
            simp [timeBlocked, hcon] at hb
          have hstep : m117Step (some th) now acc r = acc := by simp [m117Step, ht, hb]
          rw [hstep]
          simp only [ht, ha]
          rw [max_eq_left (le_trans hrt hth), ← ha]
          exact ih acc hinv
      · have hb' : timeBlocked threshold rt = false := by
          simpa using hb
        have hnew : (m117Step threshold now acc r).newest
            = some (match acc.newest with | none => rt | some b => max b rt) := by
          simp [m117Step, ht, hb', m117Apply_newest]
        have hinv' : ∀ th, threshold = some th →
            ∃ a, (m117Step threshold now acc r).newest = some a ∧ th ≤ a := by
          intro th hth
          subst hth
          have hle : th ≤ rt := by
            by_contra hcon
            push_neg at hcon
            simp [timeBlocked, le_of_lt hcon] at hb'
          cases hacc : acc.newest with
          | none =>
            refine ⟨rt, ?_, hle⟩
            rw [hnew, hacc]
          | some b =>
            refine ⟨max b rt, ?_, le_trans hle (le_max_right b rt)⟩
            rw [hnew, hacc]
        rw [ih (m117Step threshold now acc r) hinv', hnew]

/-- C5 (amended): across `process_m117_messages` calls,
`_last_seen_gcode_time` is non-decreasing; when the expiry branch fires it is
left unchanged (the call ignores its candidate events entirely); otherwise it
advances to the maximum of its previous value and all event times present in
the call (so a call whose candidates are all old keeps the higher previous
value, rather than equalling the candidates' maximum); and no event whose
time is at or below `_last_seen_gcode_time` at call time ever changes any
message state — its loop step is the identity. -/
theorem c5_sequence_monotone (st : M117State) (now : ℚ) (resps : List GcodeResp) :
    (∀ x, st.lastSeen = some x →
      ∃ y, (process_m117_messages st now resps).1.lastSeen = some y ∧ x ≤ y)
    ∧ ((truthyStr st.msg ∧ now - st.ts > M117_CLEAR_TIMEOUT) →
        (process_m117_messages st now resps).1.lastSeen = st.lastSeen)
    ∧ (¬(truthyStr st.msg ∧ now - st.ts > M117_CLEAR_TIMEOUT) →
        (process_m117_messages st now resps).1.lastSeen = maxTime st.lastSeen resps)
    ∧ (∀ (acc : M117Acc) (r : GcodeResp),
        (r.time = none ∨ ∃ t th, r.time = some t ∧ st.lastSeen = some th ∧ t ≤ th) →
        m117Step st.lastSeen now acc r = acc) := by
  have hexpiry : (truthyStr st.msg ∧ now - st.ts > M117_CLEAR_TIMEOUT) →
      (process_m117_messages st now resps).1.lastSeen = st.lastSeen := by
    intro h
    unfold process_m117_messages
    rw [if_pos h]
  have hrun : ¬(truthyStr st.msg ∧ now - st.ts > M117_CLEAR_TIMEOUT) →
      (process_m117_messages st now resps).1.lastSeen = maxTime st.lastSeen resps := by
    intro h
    unfold process_m117_messages
    rw [if_neg h]
    exact m117_fold_newest st.lastSeen now resps ⟨st.msg, st.ts, st.lastSeen, false⟩
      (fun th hth => ⟨th, hth, le_refl th⟩)
  refine ⟨?_, hexpiry, hrun, ?_⟩
  · intro x hx
    by_cases h : (truthyStr st.msg ∧ now - st.ts > M117_CLEAR_TIMEOUT)
    · exact ⟨x, (hexpiry h).trans hx, le_refl x⟩
    · rw [hrun h]
      exact maxTime_mono resps x st.lastSeen hx
  · intro acc r hr
    rcases hr with ht | ⟨t, th, ht, hth, hle⟩
    · simp [m117Step, ht]
    · simp [m117Step, ht, hth, timeBlocked, hle]

/-- C5 witness: a non-expired call with one fresh event advances
`_last_seen_gcode_time` to the `maxTime` of its events. -/
theorem c5_sequence_monotone_witness :
    ¬(truthyStr (some "A") ∧ (5 : ℚ) - 0 > M117_CLEAR_TIMEOUT)
    ∧ (process_m117_messages ⟨some "A", 0, none⟩ 5 [⟨some 3, "hi"⟩]).1.lastSeen
        = maxTime none [⟨some 3, "hi"⟩] :=
  ⟨fun h => absurd h.2 (by norm_num [M117_CLEAR_TIMEOUT]),
    (c5_sequence_monotone ⟨some "A", 0, none⟩ 5 [⟨some 3, "hi"⟩]).2.2.1
      (fun h => absurd h.2 (by norm_num [M117_CLEAR_TIMEOUT]))⟩

/-- C5 counterexample: a call whose active message has expired (age 61 > 60)
returns through the expiry branch and leaves `_last_seen_gcode_time` at its
old value 10, even though the call's candidate events contain the strictly
newer time 20 — so after this call it does NOT equal the maximum sequence
observed among the call's candidate events. -/
theorem c5_lastseen_counterexample :
    (process_m117_messages ⟨some "A", 0, some 10⟩ 61 [⟨some 20, "M117 B"⟩]).1.lastSeen
        = some 10
    ∧ ((10 : ℚ) ≠ 20) := by
  constructor
  · simp [process_m117_messages, truthyStr, M117_CLEAR_TIMEOUT]
    norm_num
  · norm_num

/-- C6: for every qualifying event (time present and strictly above
`_last_seen_gcode_time` at call time) that parses as an M117 command with
payload `d`: an empty payload clears the active message; a non-empty payload
equal to the current active text changes neither the message nor its
timestamp (no refresh); a non-empty payload different from the current text
replaces the message and sets its timestamp to `now`. -/
theorem c6_qualifying_event_semantics (th : Option ℚ) (now : ℚ) (acc : M117Acc)
    (t : ℚ) (msg d : String) (hq : timeBlocked th t = false)
    (hp : m117Payload (pyStrip msg) = some d) :
    (d = "" → (m117Step th now acc ⟨some t, msg⟩).msg = none)
    ∧ (d ≠ "" → acc.msg = some d →
        (m117Step th now acc ⟨some t, msg⟩).msg = acc.msg
          ∧ (m117Step th now acc ⟨some t, msg⟩).ts = acc.ts)
    ∧ (d ≠ "" → acc.msg ≠ some d →
        (m117Step th now acc ⟨some t, msg⟩).msg = some d
          ∧ (m117Step th now acc ⟨some t, msg⟩).ts = now) := by
  refine ⟨fun hd => ?_, fun hd hsame => ?_, fun hd hdiff => ?_⟩
  · subst hd
    by_cases hm : acc.msg = none
    · simp [m117Step, hq, m117Apply, hp, hm]
    · simp [m117Step, hq, m117Apply, hp, hm]
  · have hne : ¬(some d ≠ acc.msg) := by simp [hsame]
    constructor <;> simp [m117Step, hq, m117Apply, hp, hd, hne]
  · have hne : some d ≠ acc.msg := fun hcon => hdiff hcon.symm
    constructor <;> simp [m117Step, hq, m117Apply, hp, hd, hne]

/-- C6 witness: a fresh `M117 hello` event against an empty active message
installs the payload and stamps the clock. -/
theorem c6_qualifying_event_semantics_witness :
    timeBlocked (some 1) 2 = false
    ∧ m117Payload (pyStrip "M117 hello") = some "hello"
    ∧ (("hello" : String) = "" →
        (m117Step (some 1) 5 ⟨none, 0, none, false⟩ ⟨some 2, "M117 hello"⟩).msg = none)
    ∧ (("hello" : String) ≠ "" → (⟨none, 0, none, false⟩ : M117Acc).msg = some "hello" →
        (m117Step (some 1) 5 ⟨none, 0, none, false⟩ ⟨some 2, "M117 hello"⟩).msg
            = (⟨none, 0, none, false⟩ : M117Acc).msg
          ∧ (m117Step (some 1) 5 ⟨none, 0, none, false⟩ ⟨some 2, "M117 hello"⟩).ts
              = (⟨none, 0, none, false⟩ : M117Acc).ts)
    ∧ (("hello" : String) ≠ "" → (⟨none, 0, none, false⟩ : M117Acc).msg ≠ some "hello" →
        (m117Step (some 1) 5 ⟨none, 0, none, false⟩ ⟨some 2, "M117 hello"⟩).msg
            = some "hello"
          ∧ (m117Step (some 1) 5 ⟨none, 0, none, false⟩ ⟨some 2, "M117 hello"⟩).ts = 5) := by
  have hq : timeBlocked (some 1) 2 = false := by norm_num [timeBlocked]
  have hp : m117Payload (pyStrip "M117 hello") = some "hello" := by decide
  have h := c6_qualifying_event_semantics (some 1) 5 ⟨none, 0, none, false⟩ 2
    "M117 hello" "hello" hq hp
  exact ⟨hq, hp, h.1, h.2.1, h.2.2⟩

/-- C4 (amended): message expiry is wall-clock driven but is only evaluated
by `process_m117_messages`, which the loop invokes on the ticks that poll the
gcode feed (every 5th iteration), not on every render tick. When the check
does run: with no new events, an active message strictly older than the
timeout is cleared, and one strictly younger survives (non-null at
`t0 + T - eps`, null at `t0 + T + eps`). On a loop tick whose counter has not
reached the polling threshold, the whole M117 state is untouched. -/
theorem c4_expiry_on_poll_ticks (m : String) (t0 eps : ℚ) (ls : Option ℚ)
    (st : ScreensState) (now : ℚ) (resps : List GcodeResp) (d0 d1 : ExtruderData)
    (vr : VarsRead) (hm : m ≠ "") (heps : 0 < eps) (hc : st.gcodeCounter + 1 < 5) :
    ((process_m117_messages ⟨some m, t0, ls⟩ (t0 + M117_CLEAR_TIMEOUT + eps) []).1.msg = none)
    ∧ ((process_m117_messages ⟨some m, t0, ls⟩ (t0 + M117_CLEAR_TIMEOUT - eps) []).1.msg
        = some m)
    ∧ ((normalTick st now resps d0 d1 vr).state.m117 = st.m117) := by
  refine ⟨?_, ?_, ?_⟩
  · have hcond : (truthyStr (M117State.mk (some m) t0 ls).msg ∧
        (t0 + M117_CLEAR_TIMEOUT + eps) - (M117State.mk (some m) t0 ls).ts
          > M117_CLEAR_TIMEOUT) := by
      constructor
      · simp [truthyStr, hm]
      · dsimp
        linarith
    unfold process_m117_messages
    rw [if_pos hcond]
  · have hcond : ¬(truthyStr (M117State.mk (some m) t0 ls).msg ∧
        (t0 + M117_CLEAR_TIMEOUT - eps) - (M117State.mk (some m) t0 ls).ts
          > M117_CLEAR_TIMEOUT) := by
      intro h
      have := h.2
      dsimp at this
      linarith
    unfold process_m117_messages
    rw [if_neg hcond]
    rfl
  · have hlt : ¬(st.gcodeCounter + 1 ≥ 5) := by omega
    simp [normalTick, hlt]

/-- C4 witness: the expiry check evaluated around the 60 second boundary, and
a skipped tick from the quiescent state. -/
theorem c4_expiry_on_poll_ticks_witness :
    ("A" : String) ≠ "" ∧ (0 : ℚ) < 1 ∧ st_zero.gcodeCounter + 1 < 5
    ∧ (((process_m117_messages ⟨some "A", 0, none⟩ (0 + M117_CLEAR_TIMEOUT + 1) []).1.msg
          = none)
      ∧ ((process_m117_messages ⟨some "A", 0, none⟩ (0 + M117_CLEAR_TIMEOUT - 1) []).1.msg
          = some "A")
      ∧ ((normalTick st_zero 7 [] d_zero d_zero .statFail).state.m117 = st_zero.m117)) :=
  ⟨by decide, by norm_num, by norm_num [st_zero],
    c4_expiry_on_poll_ticks "A" 0 1 none st_zero 7 [] d_zero d_zero .statFail
      (by decide) (by norm_num) (by norm_num [st_zero])⟩

/-- C4 counterexample: a render-loop tick whose gcode counter has not reached
the polling threshold leaves an expired message active: at time 100 the
message first seen at 0 is 100 seconds old (far past the 60 second timeout),
yet after the tick `activeMessage` is still `some "A"` — expiry is NOT
checked on every tick of the render loop. -/
theorem c4_skip_tick_counterexample :
    (100 : ℚ) - st_m117.m117.ts > M117_CLEAR_TIMEOUT
    ∧ (normalTick st_m117 100 [] d_zero d_zero .statFail).state.m117.msg = some "A" := by
  constructor
  · norm_num [st_m117, st_zero, M117_CLEAR_TIMEOUT]
  · simp [normalTick, st_m117, st_zero]

/-- C2 (amended): on every NORMAL-mode tick, both channels' frames are
rendered and pushed unconditionally, and the fingerprint store of the change
detector is never consulted or updated by the loop — `needs_redraw` exists
but `main` does not call it, so fingerprint equality does not suppress any
redraw or push. -/
theorem c2_push_unconditional (st : ScreensState) (now : ℚ) (resps : List GcodeResp)
    (d0 d1 : ExtruderData) (vr : VarsRead) :
    (normalTick st now resps d0 d1 vr).pushedLeft.isSome = true
    ∧ (normalTick st now resps d0 d1 vr).pushedRight.isSome = true
    ∧ (normalTick st now resps d0 d1 vr).state.frameCache = st.frameCache := by
  refine ⟨?_, ?_, ?_⟩ <;> simp [normalTick]

/-- State reached after one quiescent tick: only the monotonic tick time and
the gcode counter moved. -/
theorem tick_one_state :
    (normalTick st_zero 1 [] d_zero d_zero .statFail).state
      = { st_zero with lastTickTime := some 1, gcodeCounter := 1 } := by
  norm_num [normalTick, st_zero, d_zero, stampM117, get_active_tool, initToolCache,
    extruderStep, dtOf, fanAdvance, rpsOf, pyMod, VEL_EMA_ALPHA, MM_PER_REV,
    EXTRUDER_SPIN_DIR, PI, period, POLL_HZ, initFrameCache]

/-- The quiescent tick pushes the quiescent left frame. -/
theorem tick_one_push :
    (normalTick st_zero 1 [] d_zero d_zero .statFail).pushedLeft = some frame_zero := by
  norm_num [normalTick, st_zero, d_zero, frame_zero, stampM117, get_active_tool,
    initToolCache, extruderStep, dtOf, fanAdvance, rpsOf, pyMod, VEL_EMA_ALPHA,
    MM_PER_REV, EXTRUDER_SPIN_DIR, PI, period, POLL_HZ]

/-- C2 counterexample: two consecutive NORMAL ticks from the quiescent state
render the exact same frame (hence equal fingerprints of all render-affecting
fields), and BOTH ticks push it to the left display — the second push happens
although nothing changed, so fingerprint equality does not gate the
output-side work. -/
theorem c2_fingerprint_gate_counterexample :
    (normalTick st_zero 1 [] d_zero d_zero .statFail).pushedLeft = some frame_zero
    ∧ (normalTick (normalTick st_zero 1 [] d_zero d_zero .statFail).state 2 []
        d_zero d_zero .statFail).pushedLeft = some frame_zero := by
  refine ⟨tick_one_push, ?_⟩
  rw [tick_one_state]
  norm_num [normalTick, st_zero, d_zero, frame_zero, stampM117, get_active_tool,
    initToolCache, extruderStep, dtOf, fanAdvance, rpsOf, pyMod, VEL_EMA_ALPHA,
    MM_PER_REV, EXTRUDER_SPIN_DIR, PI, period, POLL_HZ]
